import Mathlib

/-!
Verification development for the genie-client-cpp voice-assistant client.

This file gives a shallow embedding of the session-orchestration and
streaming-protocol layer of the client (the STT streaming client with its
audio-frame queue, and the dialogue websocket client), translated from the
C++ sources, and proves properties of the frozen specification claims.

Modelling conventions:
- C NUL-terminated byte strings are modelled as Lean String values together
  with an explicit NUL sentinel character; strncmp and memcmp are embedded
  as executable functions over List Char that pad past the end of the list
  with the NUL sentinel, which matches the byte a C string presents at its
  terminator.
- JSON values read through json-glib JsonReader are modelled by an inductive
  Json tree; reading a missing or ill-typed member with
  json_reader_get_string_value yields NULL in C, modelled as Option.none,
  and json_reader_get_int_value yields 0, modelled by a default of 0.
- Side effects (websocket sends, audio-player calls, profiling events) are
  modelled as explicit action lists returned by each handler, in the order
  the C code performs them; handlers run to completion on the single GLib
  main loop, so one invocation is one atomic state transition.
-/

/-- The NUL byte that terminates every C string. -/
def nul : Char := Char.ofNat 0

/-- Embedding of strncmp(s, t, n) == 0. The C loop compares at most n
bytes, stops early at the first difference, and stops successfully when
both strings end (matching NUL bytes). Bytes past the end of a list are
the NUL terminator. -/
def strncmpEq : List Char → List Char → Nat → Bool
  | _, _, 0 => true
  | s, t, n + 1 =>
    if s.headD nul = t.headD nul then
      if s.headD nul = nul then true else strncmpEq s.tail t.tail n
    else false

/-- Embedding of memcmp(s, t, n) == 0 on byte strings: compares exactly n
bytes with no early stop at NUL. -/
def memcmpEq : List Char → List Char → Nat → Bool
  | _, _, 0 => true
  | s, t, n + 1 =>
    if s.headD nul = t.headD nul then memcmpEq s.tail t.tail n else false

/-- p is a literal character-prefix of s (library-independent notion used
to characterize the byte-count comparisons of the source). -/
def listPre : List Char → List Char → Bool
  | [], _ => true
  | _ :: _, [] => false
  | c :: cs, a :: as => if c = a then listPre cs as else false

/-- g_ascii_isspace: space, tab, newline, vertical tab, form feed,
carriage return. -/
def g_ascii_isspace (c : Char) : Bool :=
  c = ' ' || c = Char.ofNat 9 || c = Char.ofNat 10 || c = Char.ofNat 11 ||
    c = Char.ofNat 12 || c = Char.ofNat 13

/-- g_strchug: removes leading whitespace from a string. -/
def g_strchug (s : String) : String :=
  String.mk (s.data.dropWhile g_ascii_isspace)

/-- Advancing a char pointer by n bytes, for text whose first n bytes are
ASCII (the only case in which the source does it): drop n characters. -/
def strDrop (s : String) (n : Nat) : String :=
  String.mk (s.data.drop n)

/-- ASCII lowercasing of one character. -/
def asciiLower (c : Char) : Char :=
  if c.toNat ≥ 65 ∧ c.toNat ≤ 90 then Char.ofNat (c.toNat + 32) else c

/-- Case-insensitive character-prefix test. -/
def ciPre (p s : String) : Bool :=
  listPre (p.data.map asciiLower) (s.data.map asciiLower)

/-!
## STT streaming client: audio frame queue (stt.cpp)

The STT object holds a GQueue of AudioFrame pointers and a websocket
connection. We model the observable queueing discipline: the queue
contents, the frames so far handed to soup_websocket_connection_send_binary
(oldest first), and the is_connection_open flag (acceptStream set and
websocket state OPEN, collapsed to one boolean).
-/

namespace STT

/-- AudioFrame: a length (sample count) and the PCM samples. The empty
frame (length 0, null samples) is the end-of-utterance sentinel. -/
structure AudioFrame where
  length : Nat
  samples : List Int
  deriving DecidableEq

/-- The end-of-stream sentinel frame built by send_done. -/
def emptyFrame : AudioFrame := ⟨0, []⟩

/-- Observable state of the STT client: connection openness, the pending
frame queue (head first), and the transcript of frames sent over the
socket (oldest first). A zero-length binary send is recorded as
emptyFrame. -/
structure State where
  connected : Bool
  queue : List AudioFrame
  sent : List AudioFrame
  deriving DecidableEq

/-- State after the constructor and init(): no connection, empty queue. -/
def init : State := ⟨false, [], []⟩

/-- is_connection_open(): acceptStream is set and the websocket is OPEN. -/
def is_connection_open (s : State) : Bool := s.connected

/-- dispatch_frame: send the frame as a binary payload (and free it). -/
def dispatch_frame (s : State) (f : AudioFrame) : State :=
  { s with sent := s.sent ++ [f] }

/-- The flush_queue while-loop: pop head frames one at a time, each one
dispatched (appended to the send transcript), until the queue is empty. -/
def flushList (sent : List AudioFrame) : List AudioFrame → List AudioFrame
  | [] => sent
  | f :: rest => flushList (sent ++ [f]) rest

/-- flush_queue: drain the queue head-first through dispatch_frame. -/
def flush_queue (s : State) : State :=
  { s with queue := [], sent := flushList s.sent s.queue }

/-- send_frame: if the connection is open, drain the queue then dispatch
the new frame; otherwise enqueue it at the tail. -/
def send_frame (s : State) (f : AudioFrame) : State :=
  if is_connection_open s then
    dispatch_frame (flush_queue s) f
  else
    { s with queue := s.queue ++ [f] }

/-- send_done: if the connection is open, drain the queue then send a
zero-length binary terminator; otherwise enqueue the empty sentinel
frame. -/
def send_done (s : State) : State :=
  if is_connection_open s then
    let s1 := flush_queue s
    { s1 with sent := s1.sent ++ [emptyFrame] }
  else
    { s with queue := s.queue ++ [emptyFrame] }

/-- on_connection success path: the handshake text frame is sent,
acceptStream becomes true (the connection is now open), and the queue is
flushed. -/
def on_connection (s : State) : State :=
  flush_queue { s with connected := true }

/-- The caller-visible operations available while streaming an utterance. -/
inductive Event where
  | frame (f : AudioFrame)
  | done
  deriving DecidableEq

/-- One caller operation applied to the client state. -/
def step (s : State) : Event → State
  | .frame f => send_frame s f
  | .done => send_done s

/-- A sequence of caller operations applied in order. -/
def run (s : State) (es : List Event) : State :=
  es.foldl step s

/-- The frames a sequence of operations asks to transmit, in order: each
send_frame contributes its frame, each send_done the empty sentinel. -/
def enqueued : List Event → List AudioFrame
  | [] => []
  | .frame f :: es => f :: enqueued es
  | .done :: es => emptyFrame :: enqueued es

/-!
## STT streaming client: reply handling (STT::on_message)

The server sends exactly one JSON text reply per utterance. The handler
reads the integer status, then (for status 0) the result discriminator and
the recognized text, and reacts with audio-player calls, a forwarded
dialogue command, or nothing; the transport is closed at the end in every
case. The observable behavior is the ordered list of these effects.
-/

/-- The side effects STT::on_message can perform, in order. -/
inductive SttAction where
  /-- m_audioPlayer clean_queue() -/
  | cleanQueue
  /-- m_wsClient sendCommand(text) with the mangled text -/
  | sendCommand (text : String)
  /-- m_audioPlayer playSound(SOUND_NO_MATCH) -/
  | playNoMatch
  /-- m_audioPlayer resume() -/
  | resume
  /-- soup_websocket_connection_close(conn, NORMAL) -/
  | closeConn
  deriving DecidableEq

/-- A well-formed STT reply, per the wire protocol: an integer status, a
result discriminator string, and the recognized text. -/
structure SttReply where
  status : Int
  result : String
  text : String
  deriving DecidableEq

/-- Lines 87 to 107 of stt.cpp: wake-phrase matching on the recognized
text. Four punctuated forms are tried first with strncmp over 9 bytes,
then the two bare forms over 8 bytes; on a match the char pointer is
advanced past the prefix, the remainder is duplicated and g_strchug
trimmed, and forwarded as a dialogue command. Otherwise the no-match
sound plays and playback resumes. -/
def stt_process_text (text : String) : List SttAction :=
  let m9 := strncmpEq text.data "Computer,".data 9 ||
            strncmpEq text.data "computer,".data 9 ||
            strncmpEq text.data "Computer.".data 9 ||
            strncmpEq text.data "computer.".data 9
  let m8 := strncmpEq text.data "Computer".data 8 ||
            strncmpEq text.data "computer".data 8
  let stripped := if m9 then strDrop text 9 else if m8 then strDrop text 8 else text
  let wakewordFound := m9 || m8
  if wakewordFound then
    [SttAction.sendCommand (g_strchug stripped)]
  else
    [SttAction.playNoMatch, SttAction.resume]

/-- STT::on_message on a text-type reply: status 0 plus a result whose
first two bytes memcmp-equal "ok" leads to clean_queue and the wake-word
processing of the text; status 0 with any other result does nothing;
non-zero status plays the no-match sound and resumes playback. The
connection is closed at the end in every case. -/
def stt_on_message (r : SttReply) : List SttAction :=
  (if r.status = 0 then
     if memcmpEq r.result.data "ok".data 2 then
       SttAction.cleanQueue :: stt_process_text r.text
     else []
   else [SttAction.playNoMatch, SttAction.resume]) ++ [SttAction.closeConn]

/-- Modelled from the claim for comparison (refinement target, not source
code): a case-insensitive wake-phrase match over the six literal prefixes,
punctuated forms first (strip 9), bare forms second (strip 8), leading
whitespace trimmed after stripping; none means wake word not found. -/
def wakeMatchCI (text : String) : Option String :=
  if ciPre "Computer," text || ciPre "computer," text ||
     ciPre "Computer." text || ciPre "computer." text then
    some (g_strchug (strDrop text 9))
  else if ciPre "Computer" text || ciPre "computer" text then
    some (g_strchug (strDrop text 8))
  else none

end STT

/-!
## Dialogue streaming client (wsclient.cpp)

JSON values are modelled as trees; json_builder calls construct them and
the JsonReader member accesses read them back. Handler side effects are
modelled as ordered action lists.
-/

/-- A JSON value as built by json_builder and read by JsonReader. Only the
shapes the client constructs or inspects are needed. -/
inductive Json where
  | str (s : String)
  | num (n : Int)
  | obj (members : List (String × Json))

/-- Object member lookup by name (first match). -/
def lookupMember : List (String × Json) → String → Option Json
  | [], _ => none
  | (k, v) :: rest, name => if k = name then some v else lookupMember rest name

/-- json_reader_read_member on an object. -/
def getMember : Json → String → Option Json
  | .obj ms, name => lookupMember ms name
  | _, _ => none

/-- json_reader_get_string_value after reading a member: NULL (none) when
the member is missing or not a string. -/
def readStringMember (j : Json) (name : String) : Option String :=
  match getMember j name with
  | some (.str s) => some s
  | _ => none

/-- json_reader_get_int_value after reading a member: 0 when the member
is missing or not an integer. -/
def readIntMember (j : Json) (name : String) : Int :=
  match getMember j name with
  | some (.num n) => n
  | _ => 0

namespace Ws

/-- The side effects the dialogue client can perform, in order. -/
inductive Action where
  /-- m_audioPlayer say(text) -/
  | say (text : String)
  /-- m_audioPlayer playSound(SOUND_NEWS_INTRO, true) -/
  | playSoundNewsIntro
  /-- m_audioPlayer playLocation(url) -/
  | playLocation (url : String)
  /-- sendJSON: soup_websocket_connection_send_text of a built message -/
  | sendMsg (j : Json)
  /-- app track_processing_event(PROCESSING_END_GENIE) -/
  | trackEndGenie
  /-- app track_processing_event(PROCESSING_START_GENIE) -/
  | trackStartGenie
  /-- this connect(): schedule a new websocket connection attempt -/
  | connectCall

/-- Observable per-client state of wsClient: whether checkIsConnected
passes (wconn non-null and websocket OPEN), the accept-stream gate, the
stored conversation id, the last text message id said aloud, the tracked
sequence number, and the latency-accounting flag tInit. -/
structure State where
  connected : Bool
  acceptStream : Bool
  conversationId : Option String
  lastSaidTextID : Int
  seq : Int
  tInit : Bool

/-- State after the constructor: no conversation id, lastSaidTextID -1,
tInit false; no connection yet and the gate closed until on_connection
and the id handshake run. -/
def init : State := ⟨false, false, none, -1, 0, false⟩

/-- The pong message built by handlePing. -/
def pongMsg : Json := Json.obj [("type", Json.str "pong")]

/-- The command message built by sendCommand. -/
def buildCommand (data : String) : Json :=
  Json.obj [("type", Json.str "command"), ("text", Json.str data)]

/-- sendCommand: if the connection check fails, do nothing; otherwise
build and send the command message, then start latency accounting. -/
def sendCommand (s : State) (data : String) : State × List Action :=
  if s.connected then
    ({ s with tInit := true }, [.sendMsg (buildCommand data), .trackStartGenie])
  else (s, [])

/-- handleConversationID: read the id member as a string, replace the
stored conversation id, and open the accept-stream gate. -/
def handleConversationID (s : State) (j : Json) : State × List Action :=
  ({ s with conversationId := readStringMember j "id", acceptStream := true }, [])

/-- handleText: ids at or below the last said text id are skipped with a
log message; otherwise close the latency accounting if open, say the
text, and record the id as last said. -/
def handleText (s : State) (id : Int) (j : Json) : State × List Action :=
  if id ≤ s.lastSaidTextID then (s, [])
  else
    let text := (readStringMember j "text").getD ""
    let s1 := if s.tInit then { s with tInit := false } else s
    let pre := if s.tInit then [Action.trackEndGenie] else []
    ({ s1 with lastSaidTextID := id }, pre ++ [Action.say text])

/-- handleSound: a name whose first 10 bytes strncmp-equal "news-intro"
plays the news intro sound; any other name is only logged. -/
def handleSound (s : State) (j : Json) : State × List Action :=
  let name := (readStringMember j "name").getD ""
  if strncmpEq name.data "news-intro".data 10 then
    (s, [Action.playSoundNewsIntro])
  else (s, [])

/-- handleAudio: hand the url member to the audio player. -/
def handleAudio (s : State) (j : Json) : State × List Action :=
  (s, [Action.playLocation ((readStringMember j "url").getD "")])

/-- handleError: the server-supplied error text is only logged. -/
def handleError (s : State) : State × List Action := (s, [])

/-- handleAskSpecial: acknowledged but unimplemented; only logged. -/
def handleAskSpecial (s : State) : State × List Action := (s, [])

/-- handlePing: if the connection check fails, do nothing; otherwise
build and send exactly one pong message. -/
def handlePing (s : State) : State × List Action :=
  if s.connected then (s, [Action.sendMsg pongMsg]) else (s, [])

/-- wsClient::on_message on a text-type message: read the type member; a
type whose first two bytes strncmp-equal "id" goes to
handleConversationID; every other message has its integer id read into
the tracked sequence number and is then dispatched by strncmp on the
type, but only when the accept-stream gate is open; with the gate closed
it is logged and dropped. A missing or non-string type member would
crash the C client (NULL passed to strncmp) and is modelled as a no-op;
no claim depends on it. -/
def on_message (s : State) (j : Json) : State × List Action :=
  match readStringMember j "type" with
  | none => (s, [])
  | some ty =>
    if strncmpEq ty.data "id".data 2 then
      handleConversationID s j
    else
      let id := readIntMember j "id"
      let s1 := { s with seq := id }
      if s1.acceptStream then
        if strncmpEq ty.data "text".data 4 then handleText s1 id j
        else if strncmpEq ty.data "sound".data 5 then handleSound s1 j
        else if strncmpEq ty.data "audio".data 5 then handleAudio s1 j
        else if strncmpEq ty.data "error".data 5 then handleError s1
        else if strncmpEq ty.data "askSpecial".data 10 then handleAskSpecial s1
        else if strncmpEq ty.data "ping".data 4 then handlePing s1
        else if strncmpEq ty.data "command".data 7 ||
                strncmpEq ty.data "new-program".data 11 ||
                strncmpEq ty.data "rdl".data 3 ||
                strncmpEq ty.data "link".data 4 ||
                strncmpEq ty.data "button".data 6 ||
                strncmpEq ty.data "video".data 5 ||
                strncmpEq ty.data "picture".data 7 ||
                strncmpEq ty.data "choice".data 5 then
          (s1, [])
        else (s1, [])
      else (s1, [])

/-- wsClient::on_close: log the close code and data, then re-invoke
connect() once. -/
def on_close (s : State) : State × List Action :=
  (s, [Action.connectCall])

/-- Result of the asynchronous websocket connect attempt. -/
inductive ConnectResult where
  | ok
  | err

/-- wsClient::on_connection: a connect error is logged and the handler
returns with no retry; on success the connection is stored and the
accept-stream gate reset to false until the id handshake. -/
def on_connection (s : State) (r : ConnectResult) : State × List Action :=
  match r with
  | .err => (s, [])
  | .ok => ({ s with connected := true, acceptStream := false }, [])

/-- Discriminator for the reconnect action. -/
def isConnectCall : Action → Bool
  | .connectCall => true
  | _ => false

end Ws

/-!
## Helper lemmas
-/

/-- For a NUL-free pattern p, strncmp(s, p, strlen p) == 0 is exactly the
statement that p is a character-prefix of s. -/
theorem strncmpEq_eq_listPre :
    ∀ (p s : List Char), nul ∉ p → strncmpEq s p p.length = listPre p s := by
  intro p
  induction p with
  | nil => intro s _; rfl
  | cons c cs ih =>
    intro s hp
    have hc : ¬(c = nul) := fun h => hp (by simp [h])
    have hcs : nul ∉ cs := fun h => hp (List.mem_cons_of_mem c h)
    cases s with
    | nil =>
      simp only [List.length_cons, strncmpEq, List.headD, listPre]
      rw [if_neg (fun h => hc h.symm)]
    | cons a as =>
      simp only [List.length_cons, strncmpEq, List.headD, List.tail_cons, listPre]
      by_cases hac : a = c
      · subst hac
        rw [if_pos rfl, if_pos rfl, if_neg hc, ih as hcs]
      · rw [if_neg hac, if_neg (fun h => hac h.symm)]

/-- For a NUL-free pattern p, memcmp(s, p, strlen p) == 0 is exactly the
statement that p is a character-prefix of s. -/
theorem memcmpEq_eq_listPre :
    ∀ (p s : List Char), nul ∉ p → memcmpEq s p p.length = listPre p s := by
  intro p
  induction p with
  | nil => intro s _; rfl
  | cons c cs ih =>
    intro s hp
    have hc : ¬(c = nul) := fun h => hp (by simp [h])
    have hcs : nul ∉ cs := fun h => hp (List.mem_cons_of_mem c h)
    cases s with
    | nil =>
      simp only [List.length_cons, memcmpEq, List.headD, listPre]
      rw [if_neg (fun h => hc h.symm)]
    | cons a as =>
      simp only [List.length_cons, memcmpEq, List.headD, List.tail_cons, listPre]
      by_cases hac : a = c
      · subst hac
        rw [if_pos rfl, ih as hcs, if_pos rfl]
      · rw [if_neg hac, if_neg (fun h => hac h.symm)]

/-- Draining the queue appends it, in order, to the send transcript. -/
theorem STT.flushList_eq (q : List STT.AudioFrame) :
    ∀ sent, STT.flushList sent q = sent ++ q := by
  induction q with
  | nil => intro sent; simp [STT.flushList]
  | cons f rest ih => intro sent; simp [STT.flushList, ih]

/-- While the connection is not open, send_frame and send_done only
append to the queue, in call order, and nothing is transmitted. -/
theorem STT.run_closed (es : List STT.Event) :
    ∀ q snt, STT.run ⟨false, q, snt⟩ es = ⟨false, q ++ STT.enqueued es, snt⟩ := by
  induction es with
  | nil => intro q snt; simp [STT.run, STT.enqueued]
  | cons e es ih =>
    intro q snt
    cases e with
    | frame f =>
      show STT.run (STT.step ⟨false, q, snt⟩ (.frame f)) es = _
      rw [show STT.step ⟨false, q, snt⟩ (.frame f) = ⟨false, q ++ [f], snt⟩ from rfl]
      rw [ih]
      simp [STT.enqueued]
    | done =>
      show STT.run (STT.step ⟨false, q, snt⟩ .done) es = _
      rw [show STT.step ⟨false, q, snt⟩ .done = ⟨false, q ++ [STT.emptyFrame], snt⟩ from rfl]
      rw [ih]
      simp [STT.enqueued]

/-- Full characterization of the wake-phrase processing: the byte-count
strncmp tests are exactly literal (case-preserving) prefix tests, tried
punctuated forms first. -/
theorem stt_process_text_eq (text : String) :
    STT.stt_process_text text =
      (if listPre "Computer,".data text.data || listPre "computer,".data text.data ||
          listPre "Computer.".data text.data || listPre "computer.".data text.data then
        [STT.SttAction.sendCommand (g_strchug (strDrop text 9))]
      else if listPre "Computer".data text.data || listPre "computer".data text.data then
        [STT.SttAction.sendCommand (g_strchug (strDrop text 8))]
      else [STT.SttAction.playNoMatch, STT.SttAction.resume]) := by
  have h1 : strncmpEq text.data "Computer,".data 9 = listPre "Computer,".data text.data :=
    strncmpEq_eq_listPre "Computer,".data text.data (by decide)
  have h2 : strncmpEq text.data "computer,".data 9 = listPre "computer,".data text.data :=
    strncmpEq_eq_listPre "computer,".data text.data (by decide)
  have h3 : strncmpEq text.data "Computer.".data 9 = listPre "Computer.".data text.data :=
    strncmpEq_eq_listPre "Computer.".data text.data (by decide)
  have h4 : strncmpEq text.data "computer.".data 9 = listPre "computer.".data text.data :=
    strncmpEq_eq_listPre "computer.".data text.data (by decide)
  have h5 : strncmpEq text.data "Computer".data 8 = listPre "Computer".data text.data :=
    strncmpEq_eq_listPre "Computer".data text.data (by decide)
  have h6 : strncmpEq text.data "computer".data 8 = listPre "computer".data text.data :=
    strncmpEq_eq_listPre "computer".data text.data (by decide)
  simp only [STT.stt_process_text, h1, h2, h3, h4, h5, h6]
  cases hA : listPre "Computer,".data text.data <;>
    cases hB : listPre "computer,".data text.data <;>
      cases hC : listPre "Computer.".data text.data <;>
        cases hD : listPre "computer.".data text.data <;>
          cases hE : listPre "Computer".data text.data <;>
            cases hF : listPre "computer".data text.data <;>
              simp

/-!
## Claim theorems
-/

/-- Claim C1: for every sequence of send_frame and send_done calls made
while the STT connection is not open, followed by the connection becoming
open, the queued frames are transmitted over the socket in exactly the
order they were enqueued, each exactly once, none dropped; and a frame
arriving while the connection is open is sent only after all queued
frames have been drained. -/
theorem stt_queue_fifo_order (es : List STT.Event) (f : STT.AudioFrame) :
    STT.on_connection (STT.run STT.init es) = ⟨true, [], STT.enqueued es⟩ ∧
    (∀ s : STT.State, s.connected = true →
      STT.send_frame s f = ⟨true, [], s.sent ++ s.queue ++ [f]⟩ ∧
      STT.send_done s = ⟨true, [], s.sent ++ s.queue ++ [STT.emptyFrame]⟩) := by
  constructor
  · rw [show STT.init = (⟨false, [], []⟩ : STT.State) from rfl, STT.run_closed]
    simp [STT.on_connection, STT.flush_queue, STT.flushList_eq]
  · intro s hs
    obtain ⟨c, q, snt⟩ := s
    replace hs : c = true := hs
    subst hs
    constructor
    · simp [STT.send_frame, STT.is_connection_open, STT.dispatch_frame, STT.flush_queue,
            STT.flushList_eq]
    · simp [STT.send_done, STT.is_connection_open, STT.flush_queue, STT.flushList_eq]

/-- Witness for stt_queue_fifo_order at a concrete event sequence and a
concrete open state. -/
theorem stt_queue_fifo_order_witness :
    STT.on_connection (STT.run STT.init
        [STT.Event.frame ⟨2, [1, 2]⟩, STT.Event.done, STT.Event.frame ⟨1, [3]⟩])
      = ⟨true, [], [⟨2, [1, 2]⟩, STT.emptyFrame, ⟨1, [3]⟩]⟩ ∧
    STT.send_frame ⟨true, [⟨2, [1, 2]⟩], [⟨1, [3]⟩]⟩ ⟨1, [4]⟩
      = ⟨true, [], [⟨1, [3]⟩, ⟨2, [1, 2]⟩, ⟨1, [4]⟩]⟩ := by
  constructor
  · exact (stt_queue_fifo_order
      [STT.Event.frame ⟨2, [1, 2]⟩, STT.Event.done, STT.Event.frame ⟨1, [3]⟩] ⟨1, [4]⟩).1
  · exact ((stt_queue_fifo_order [] ⟨1, [4]⟩).2 ⟨true, [⟨2, [1, 2]⟩], [⟨1, [3]⟩]⟩ rfl).1

/-- Claim C2 as stated is false: the wake-phrase match of the code is
byte-exact, not case-insensitive. On the text "COMPUTER, on" a
case-insensitive match over the six prefixes succeeds (stripping 9 and
trimming gives "on"), but the code classifies the text as wake word not
found and plays the no-match cue. -/
theorem wake_match_case_cex :
    STT.wakeMatchCI "COMPUTER, on" = some "on" ∧
    STT.stt_process_text "COMPUTER, on" = [STT.SttAction.playNoMatch, STT.SttAction.resume] := by
  constructor <;> rfl

/-- Claim C2 (amended): the wake-phrase match is a case-preserving,
byte-exact match over exactly the six literal prefixes, punctuated forms
first (stripping 9 characters), bare forms second (stripping 8), with
leading whitespace trimmed after stripping; text matching none of the six
is classified as wake word not found. -/
theorem wake_match_exact_prefixes (text : String) :
    STT.stt_process_text text =
      (if listPre "Computer,".data text.data || listPre "computer,".data text.data ||
          listPre "Computer.".data text.data || listPre "computer.".data text.data then
        [STT.SttAction.sendCommand (g_strchug (strDrop text 9))]
      else if listPre "Computer".data text.data || listPre "computer".data text.data then
        [STT.SttAction.sendCommand (g_strchug (strDrop text 8))]
      else [STT.SttAction.playNoMatch, STT.SttAction.resume]) :=
  stt_process_text_eq text

/-- Claim C3 as stated is false for status-zero replies with a result
discriminator other than "ok": the code has no else branch there, so no
failure cue is played and playback is not resumed; the reply is silently
dropped and only the transport close happens, even when the text carries
a wake word. -/
theorem stt_silent_drop_cex :
    STT.stt_on_message ⟨0, "error", "computer hello"⟩ = [STT.SttAction.closeConn] := rfl

/-- Claim C3 (amended): a reply with non-zero status triggers the
no-match cue and playback resume with no command forwarded; a reply with
status zero whose result does not begin with the two bytes "ok" is
silently discarded with no cue, no resume and no command, only the
transport close. -/
theorem stt_failure_paths (r : STT.SttReply) :
    (r.status ≠ 0 →
      STT.stt_on_message r =
        [STT.SttAction.playNoMatch, STT.SttAction.resume, STT.SttAction.closeConn]) ∧
    (r.status = 0 → memcmpEq r.result.data "ok".data 2 = false →
      STT.stt_on_message r = [STT.SttAction.closeConn]) := by
  constructor
  · intro h
    simp [STT.stt_on_message, h]
  · intro h0 hok
    simp [STT.stt_on_message, h0, hok]

/-- Witness for stt_failure_paths at concrete failing replies. -/
theorem stt_failure_paths_witness :
    STT.stt_on_message ⟨1, "ok", "x"⟩ =
      [STT.SttAction.playNoMatch, STT.SttAction.resume, STT.SttAction.closeConn] ∧
    STT.stt_on_message ⟨0, "err", "x"⟩ = [STT.SttAction.closeConn] :=
  ⟨(stt_failure_paths ⟨1, "ok", "x"⟩).1 (by decide),
   (stt_failure_paths ⟨0, "err", "x"⟩).2 rfl (by decide)⟩

/-- Claim C4 as stated is false for non-text events: a sound event whose
id (3) is at or below the last-applied text id (5) is still dispatched
and reaches the Audio Player; the staleness guard exists only in
handleText. -/
theorem ws_stale_sound_cex :
    (Ws.on_message ⟨true, true, none, 5, 5, false⟩
        (Json.obj [("type", Json.str "sound"), ("id", Json.num 3),
                   ("name", Json.str "news-intro")])).2
      = [Ws.Action.playSoundNewsIntro] := rfl

/-- Claim C4 (amended): the id staleness guard applies only to text-type
events: a text event with id at or below the last-applied text id is
discarded and never passed to the Audio Player (only the tracked sequence
number is updated); a text event with a strictly greater id is handed to
the Audio Player and its id recorded as the new last-applied id; a sound
event is dispatched to the Audio Player regardless of its id. -/
theorem ws_text_id_guard :
    (∀ (s : Ws.State) (j : Json), readStringMember j "type" = some "text" →
      s.acceptStream = true →
      (readIntMember j "id" ≤ s.lastSaidTextID →
        Ws.on_message s j = ({ s with seq := readIntMember j "id" }, [])) ∧
      (s.lastSaidTextID < readIntMember j "id" →
        Ws.on_message s j =
          ({ s with seq := readIntMember j "id", lastSaidTextID := readIntMember j "id",
                    tInit := false },
           (if s.tInit then [Ws.Action.trackEndGenie] else []) ++
             [Ws.Action.say ((readStringMember j "text").getD "")]))) ∧
    (∀ (s : Ws.State) (j : Json), readStringMember j "type" = some "sound" →
      s.acceptStream = true → readStringMember j "name" = some "news-intro" →
      Ws.on_message s j =
        ({ s with seq := readIntMember j "id" }, [Ws.Action.playSoundNewsIntro])) := by
  constructor
  · intro s j hty hacc
    obtain ⟨c, a, cid, last, sq, t⟩ := s
    replace hacc : a = true := hacc
    subst hacc
    have e1 : strncmpEq "text".data "id".data 2 = false := by decide
    have e2 : strncmpEq "text".data "text".data 4 = true := by decide
    constructor
    · intro hid
      simp [Ws.on_message, hty, e1, e2, Ws.handleText, hid]
    · intro hlt
      have hnle : ¬(readIntMember j "id" ≤ last) := not_le.mpr hlt
      cases t <;> simp [Ws.on_message, hty, e1, e2, Ws.handleText, hnle]
  · intro s j hty hacc hname
    obtain ⟨c, a, cid, last, sq, t⟩ := s
    replace hacc : a = true := hacc
    subst hacc
    have e1 : strncmpEq "sound".data "id".data 2 = false := by decide
    have e2 : strncmpEq "sound".data "text".data 4 = false := by decide
    have e3 : strncmpEq "sound".data "sound".data 5 = true := by decide
    have e4 : strncmpEq "news-intro".data "news-intro".data 10 = true := by decide
    simp [Ws.on_message, hty, e1, e2, e3, Ws.handleSound, hname, e4]

/-- Witness for ws_text_id_guard: a stale text event (id 3, last said 5)
is dropped with only the sequence number updated; a fresh text event
(id 9) is said aloud and recorded. -/
theorem ws_text_id_guard_witness :
    Ws.on_message ⟨true, true, none, 5, 0, false⟩
        (Json.obj [("type", Json.str "text"), ("id", Json.num 3), ("text", Json.str "hi")])
      = (⟨true, true, none, 5, 3, false⟩, []) ∧
    Ws.on_message ⟨true, true, none, 5, 0, false⟩
        (Json.obj [("type", Json.str "text"), ("id", Json.num 9), ("text", Json.str "hi")])
      = (⟨true, true, none, 9, 9, false⟩, [Ws.Action.say "hi"]) := by
  constructor
  · exact (ws_text_id_guard.1 ⟨true, true, none, 5, 0, false⟩
      (Json.obj [("type", Json.str "text"), ("id", Json.num 3), ("text", Json.str "hi")])
      rfl rfl).1 (by decide)
  · exact (ws_text_id_guard.1 ⟨true, true, none, 5, 0, false⟩
      (Json.obj [("type", Json.str "text"), ("id", Json.num 9), ("text", Json.str "hi")])
      rfl rfl).2 (by decide)

/-- Claim C5 as stated is false: the type dispatch uses strncmp over two
bytes, so any type beginning with "id" (here "idle") is handled as the
id-assignment message even while accept-stream is false: the conversation
id is stored and the gate opens, instead of the message being dropped. -/
theorem ws_idle_handled_cex :
    Ws.on_message ⟨true, false, none, -1, 0, false⟩
        (Json.obj [("type", Json.str "idle"), ("id", Json.str "conv1")])
      = (⟨true, true, some "conv1", -1, 0, false⟩, []) := rfl

/-- Claim C5 (amended): while the accept-stream gate is false, every
inbound message whose type does not begin with the two bytes "id" is
dropped without being dispatched (only the tracked sequence number is
updated from its id); a message whose type begins with "id" is always
processed as the id-assignment message: its conversation id is stored
and accept-stream is set true. -/
theorem ws_accept_gate (s : Ws.State) (j : Json) (ty : String)
    (hty : readStringMember j "type" = some ty) (hacc : s.acceptStream = false) :
    (strncmpEq ty.data "id".data 2 = true →
      Ws.on_message s j =
        ({ s with conversationId := readStringMember j "id", acceptStream := true }, [])) ∧
    (strncmpEq ty.data "id".data 2 = false →
      Ws.on_message s j = ({ s with seq := readIntMember j "id" }, [])) := by
  constructor
  · intro hid
    simp [Ws.on_message, hty, hid, Ws.handleConversationID]
  · intro hid
    simp [Ws.on_message, hty, hid, hacc]

/-- Witness for ws_accept_gate: with the gate closed, an id message is
processed and opens the gate; a text message is dropped with only the
sequence number updated. -/
theorem ws_accept_gate_witness :
    Ws.on_message ⟨true, false, none, -1, 0, false⟩
        (Json.obj [("type", Json.str "id"), ("id", Json.str "c1")])
      = (⟨true, true, some "c1", -1, 0, false⟩, []) ∧
    Ws.on_message ⟨true, false, none, -1, 0, false⟩
        (Json.obj [("type", Json.str "text"), ("id", Json.num 9), ("text", Json.str "hi")])
      = (⟨true, false, none, -1, 9, false⟩, []) := by
  constructor
  · exact (ws_accept_gate ⟨true, false, none, -1, 0, false⟩
      (Json.obj [("type", Json.str "id"), ("id", Json.str "c1")]) "id" rfl rfl).1 (by decide)
  · exact (ws_accept_gate ⟨true, false, none, -1, 0, false⟩
      (Json.obj [("type", Json.str "text"), ("id", Json.num 9), ("text", Json.str "hi")])
      "text" rfl rfl).2 (by decide)

/-- Claim C6 as stated is false when the connection check fails: a ping
received while accept-stream is true but checkIsConnected returns false
(websocket not OPEN) produces no pong at all; handlePing returns early. -/
theorem ws_ping_dropped_cex :
    Ws.on_message ⟨false, true, none, -1, 0, false⟩
        (Json.obj [("type", Json.str "ping"), ("id", Json.num 7)])
      = (⟨false, true, none, -1, 7, false⟩, []) := rfl

/-- Claim C6 (amended): for a ping event received while accept-stream is
true, if the connection check passes the client sends exactly one pong
message and the handler has no other side effect (beyond the sequence
number update the dispatcher performs for every non-id message); if the
connection check fails, no reply is sent. -/
theorem ws_ping_pong (s : Ws.State) (j : Json)
    (hty : readStringMember j "type" = some "ping") (hacc : s.acceptStream = true) :
    (s.connected = true →
      Ws.on_message s j =
        ({ s with seq := readIntMember j "id" }, [Ws.Action.sendMsg Ws.pongMsg])) ∧
    (s.connected = false →
      Ws.on_message s j = ({ s with seq := readIntMember j "id" }, [])) := by
  have e1 : strncmpEq "ping".data "id".data 2 = false := by decide
  have e2 : strncmpEq "ping".data "text".data 4 = false := by decide
  have e3 : strncmpEq "ping".data "sound".data 5 = false := by decide
  have e4 : strncmpEq "ping".data "audio".data 5 = false := by decide
  have e5 : strncmpEq "ping".data "error".data 5 = false := by decide
  have e6 : strncmpEq "ping".data "askSpecial".data 10 = false := by decide
  have e7 : strncmpEq "ping".data "ping".data 4 = true := by decide
  constructor
  · intro hc
    simp [Ws.on_message, hty, hacc, e1, e2, e3, e4, e5, e6, e7, Ws.handlePing, hc]
  · intro hc
    simp [Ws.on_message, hty, hacc, e1, e2, e3, e4, e5, e6, e7, Ws.handlePing, hc]

/-- Witness for ws_ping_pong: a ping with the gate open and the socket
connected yields exactly one pong. -/
theorem ws_ping_pong_witness :
    Ws.on_message ⟨true, true, none, -1, 0, false⟩
        (Json.obj [("type", Json.str "ping"), ("id", Json.num 7)])
      = (⟨true, true, none, -1, 7, false⟩, [Ws.Action.sendMsg Ws.pongMsg]) :=
  (ws_ping_pong ⟨true, true, none, -1, 0, false⟩
    (Json.obj [("type", Json.str "ping"), ("id", Json.num 7)]) rfl rfl).1 rfl

/-- handleConversationID never schedules a reconnect. -/
theorem countP_handleConversationID (s : Ws.State) (j : Json) :
    (Ws.handleConversationID s j).2.countP Ws.isConnectCall = 0 := rfl

/-- handleText never schedules a reconnect. -/
theorem countP_handleText (s : Ws.State) (id : Int) (j : Json) :
    (Ws.handleText s id j).2.countP Ws.isConnectCall = 0 := by
  unfold Ws.handleText
  split
  · rfl
  · dsimp only
    split <;> simp [Ws.isConnectCall]

/-- handleSound never schedules a reconnect. -/
theorem countP_handleSound (s : Ws.State) (j : Json) :
    (Ws.handleSound s j).2.countP Ws.isConnectCall = 0 := by
  unfold Ws.handleSound
  dsimp only
  split <;> simp [Ws.isConnectCall]

/-- handleAudio never schedules a reconnect. -/
theorem countP_handleAudio (s : Ws.State) (j : Json) :
    (Ws.handleAudio s j).2.countP Ws.isConnectCall = 0 := by
  simp [Ws.handleAudio, Ws.isConnectCall]

/-- handlePing never schedules a reconnect. -/
theorem countP_handlePing (s : Ws.State) :
    (Ws.handlePing s).2.countP Ws.isConnectCall = 0 := by
  unfold Ws.handlePing
  split <;> simp [Ws.isConnectCall]

/-- Claim C7: when the dialogue transport closes, on_close re-invokes
connect exactly once (and changes nothing else); a failed connection
attempt performs no retry; and no message handling ever triggers a
connect, so transport close is the only automatic reconnect path. -/
theorem ws_reconnect_close_only :
    (∀ s : Ws.State, Ws.on_close s = (s, [Ws.Action.connectCall])) ∧
    (∀ (s : Ws.State) (r : Ws.ConnectResult), (Ws.on_connection s r).2 = []) ∧
    (∀ (s : Ws.State) (j : Json),
      ((Ws.on_message s j).2).countP Ws.isConnectCall = 0) := by
  refine ⟨fun s => rfl, fun s r => by cases r <;> rfl, fun s j => ?_⟩
  cases hm : readStringMember j "type" with
  | none => simp [Ws.on_message, hm]
  | some ty =>
    simp only [Ws.on_message, hm]
    by_cases h1 : strncmpEq ty.data "id".data 2 = true
    · simp [h1, countP_handleConversationID]
    · by_cases hacc : s.acceptStream = true
      · by_cases h2 : strncmpEq ty.data "text".data 4 = true
        · simp [h1, hacc, h2, countP_handleText]
        · by_cases h3 : strncmpEq ty.data "sound".data 5 = true
          · simp [h1, hacc, h2, h3, countP_handleSound]
          · by_cases h4 : strncmpEq ty.data "audio".data 5 = true
            · simp [h1, hacc, h2, h3, h4, countP_handleAudio]
            · by_cases h5 : strncmpEq ty.data "error".data 5 = true
              · simp [h1, hacc, h2, h3, h4, h5, Ws.handleError]
              · by_cases h6 : strncmpEq ty.data "askSpecial".data 10 = true
                · simp [h1, hacc, h2, h3, h4, h5, h6, Ws.handleAskSpecial]
                · by_cases h7 : strncmpEq ty.data "ping".data 4 = true
                  · simp [h1, hacc, h2, h3, h4, h5, h6, h7, countP_handlePing]
                  · simp [h1, hacc, h2, h3, h4, h5, h6, h7, ite_self]
      · simp [h1, hacc]

/-- Claim C8: constructing the outgoing command message from any text and
reading it back yields type "command" and the original text. -/
theorem command_roundtrip (data : String) :
    readStringMember (Ws.buildCommand data) "type" = some "command" ∧
    readStringMember (Ws.buildCommand data) "text" = some data :=
  ⟨rfl, rfl⟩

/-- Claim C9: for a status-zero reply, the result discriminator is
accepted exactly when its first two bytes are "ok", so any result
beginning with "ok" (such as "okay") is treated as the success
discriminator. -/
theorem stt_result_ok_by_bytes :
    (∀ result : String, memcmpEq result.data "ok".data 2 = listPre "ok".data result.data) ∧
    STT.stt_on_message ⟨0, "okay", "computer play jazz"⟩ =
      [STT.SttAction.cleanQueue, STT.SttAction.sendCommand "play jazz",
       STT.SttAction.closeConn] := by
  constructor
  · intro result
    exact memcmpEq_eq_listPre "ok".data result.data (by decide)
  · rfl

/-- Claim C10 as stated is false on texts where a punctuated form matches
first: "computer, hi" has first 8 characters "computer", but the code
strips 9 characters (the comma form has priority) and sends "hi", not
the 8-character-strip result ", hi" (a comma is not whitespace, so
trimming would keep it). -/
theorem wake_strip9_cex :
    STT.stt_process_text "computer, hi" = [STT.SttAction.sendCommand "hi"] ∧
    g_strchug (strDrop "computer, hi" 8) = ", hi" := by
  constructor <;> rfl

/-- Claim C10 (amended): every text whose first 8 characters are exactly
"Computer" or "computer" is classified as wake word found, even with no
delimiter after the prefix; 8 characters are stripped unless one of the
four punctuated 9-character prefixes matches first, in which case 9 are
stripped. -/
theorem wake8_strip (text : String)
    (h8 : listPre "Computer".data text.data = true ∨ listPre "computer".data text.data = true) :
    (∃ cmd, STT.stt_process_text text = [STT.SttAction.sendCommand cmd]) ∧
    ((listPre "Computer,".data text.data || listPre "computer,".data text.data ||
      listPre "Computer.".data text.data || listPre "computer.".data text.data) = false →
      STT.stt_process_text text = [STT.SttAction.sendCommand (g_strchug (strDrop text 8))]) := by
  have hb8 : (listPre "Computer".data text.data || listPre "computer".data text.data) = true := by
    rcases h8 with h | h <;> simp [h]
  constructor
  · by_cases h9 : (listPre "Computer,".data text.data || listPre "computer,".data text.data ||
        listPre "Computer.".data text.data || listPre "computer.".data text.data) = true
    · exact ⟨g_strchug (strDrop text 9), by rw [stt_process_text_eq, if_pos h9]⟩
    · exact ⟨g_strchug (strDrop text 8), by rw [stt_process_text_eq, if_neg h9, if_pos hb8]⟩
  · intro h9f
    have h9n : ¬((listPre "Computer,".data text.data || listPre "computer,".data text.data ||
        listPre "Computer.".data text.data || listPre "computer.".data text.data) = true) := by
      simp [h9f]
    rw [stt_process_text_eq, if_neg h9n, if_pos hb8]

/-- Witness for wake8_strip: the delimiter-less text from the claim. -/
theorem wake8_strip_witness :
    STT.stt_process_text "computerize the data" = [STT.SttAction.sendCommand "ize the data"] := by
  have h := (wake8_strip "computerize the data" (Or.inr (by decide))).2 (by decide)
  exact h.trans (by decide)
